import Mathlib

/-!
# PVA Electrospinning Predictor — verification of the prediction engine

Shallow embedding of the computational core of the repository (the
`useEffect` prediction pipeline, the score calculators and the three
chart-data generators of `App`).  JavaScript numbers are modelled as exact
rationals (`ℚ`); `Math.max`/`Math.min` become `max`/`min`; `Math.round`
becomes `⌊x + 1/2⌋` (JS rounds half up); the transcendental degradation
profile is modelled over `ℝ` with `Real.exp` and `Real.rpow`.
-/

namespace PVA

/-- The five slider inputs (`mw`, `concentration`, `voltage`, `flowRate`,
`distance` in the source). -/
structure Inputs where
  mw : ℚ
  concentration : ℚ
  voltage : ℚ
  flowRate : ℚ
  distance : ℚ
deriving DecidableEq, Repr

/-- `Math.max lo (Math.min hi x)`, the clamping idiom used throughout. -/
def clamp (lo hi x : ℚ) : ℚ := max lo (min hi x)

/-- JS `Math.round` (round half toward positive infinity). -/
def jsRound (q : ℚ) : ℤ := Int.floor (q + 1/2)

/-- `Math.round(x * 10) / 10`, the one-decimal rounding used by the chart
generators. -/
def round10 (q : ℚ) : ℚ := (jsRound (q * 10) : ℚ) / 10

/-! ## Stage 1: process → architecture -/

def viscosityFactor (s : Inputs) : ℚ := (s.mw / 100000) * (s.concentration / 10)

def voltageFactor (s : Inputs) : ℚ := 1 - (s.voltage - 17.5) * 0.015

def flowFactor (s : Inputs) : ℚ := 1 + (s.flowRate - 1.5) * 0.12

def distanceFactor (s : Inputs) : ℚ := 1 + (s.distance - 15) * 0.008

def fiberDiameter (s : Inputs) : ℚ :=
  clamp 150 1500 (400 * viscosityFactor s * voltageFactor s * flowFactor s * distanceFactor s)

def porosity (s : Inputs) : ℚ :=
  clamp 60 95 (95 - (fiberDiameter s / 100) * 2.5 + (s.voltage - 17.5) * 0.5)

def poreSize (s : Inputs) : ℚ :=
  clamp 2 15 ((fiberDiameter s / 200) * 1.5 + porosity s / 20)

def tensileStrength (s : Inputs) : ℚ :=
  clamp 2 32 (2.5 + (s.mw / 100000) * 5.2 + (s.concentration - 10) * 0.35 -
    (if fiberDiameter s > 1000 then 2 else 0))

def youngsModulus (s : Inputs) : ℚ :=
  clamp 20 85 (25 + (s.mw / 100000) * 60 + (s.concentration - 10) * 2.5)

def waterAbsorption (s : Inputs) : ℚ :=
  clamp 350 950 (950 - (s.mw / 100000) * 280 + (porosity s - 75) * 8)

def contactAngle (s : Inputs) : ℚ :=
  clamp 35 75 (45 + (s.mw / 100000) * 15 - (porosity s - 75) * 0.3)

def degradationRate (s : Inputs) : ℚ :=
  clamp 4 25 (25 - (s.mw / 100000) * 10.5 + (porosity s - 75) * 0.15)

def swellingRatio (s : Inputs) : ℚ :=
  clamp 80 100 (100 - (s.mw / 100000) * 8 - (s.concentration - 10) * 0.5)

/-- `minConc = mw < 70000 ? 6 : (mw < 150000 ? 8 : 9)` -/
def minConc (s : Inputs) : ℚ :=
  if s.mw < 70000 then 6 else if s.mw < 150000 then 8 else 9

/-- `maxConc = mw < 70000 ? 14 : (mw < 150000 ? 12 : 10.5)` -/
def maxConc (s : Inputs) : ℚ :=
  if s.mw < 70000 then 14 else if s.mw < 150000 then 12 else 10.5

/-- `isInWindow = concentration >= minConc && concentration <= maxConc` -/
def isInWindow (s : Inputs) : Bool :=
  decide (minConc s ≤ s.concentration) && decide (s.concentration ≤ maxConc s)

/-- Morphology assessment: the `let morphology = ...; if/else if/else if`
chain of the source, first matching rule wins, default label otherwise. -/
def morphology (s : Inputs) : String :=
  if s.mw < 70000 ∧ s.concentration < 9 then "Beaded fibers (beads-on-string)"
  else if s.mw > 150000 ∧ s.concentration > 10 then "Thick fibers, potential ribbon-like"
  else if 100000 ≤ s.mw ∧ s.mw ≤ 150000 then "Smooth, uniform, bead-free (optimal)"
  else "Uniform, bead-free fibers"

/-! ## Stage 2: architecture → biology -/

/-- The unclamped cell-viability expression
`92 + (porosity > 75 ? 4 : 0) + (fiberDiameter > 300 && fiberDiameter < 900 ? 2 : 0)`. -/
def cellViabilityRaw (s : Inputs) : ℚ :=
  92 + (if porosity s > 75 then 4 else 0) +
    (if fiberDiameter s > 300 ∧ fiberDiameter s < 900 then 2 else 0)

def cellViability (s : Inputs) : ℚ := clamp 85 98 (cellViabilityRaw s)

def proliferationTime (s : Inputs) : ℚ :=
  clamp 20 48 (32 - (porosity s - 75) * 0.3 - (if poreSize s > 4 then 4 else 0) +
    (if fiberDiameter s > 1000 then 6 else 0))

def gagContent (s : Inputs) : ℚ :=
  clamp 5 45 (10 + youngsModulus s / 10 + (if poreSize s > 6 then 15 else 0) +
    (if fiberDiameter s > 800 then 8 else 0))

def col2Expression (s : Inputs) : ℚ :=
  clamp 1 8 (1.5 + youngsModulus s / 15 + (if poreSize s > 6 then 2.5 else 0) +
    (if s.mw > 140000 then 1.5 else 0))

def aggrecanExpression (s : Inputs) : ℚ :=
  clamp 1 6 (1.2 + youngsModulus s / 20 + (if poreSize s > 6 then 2 else 0) +
    (if fiberDiameter s > 800 then 1 else 0))

/-- `col1_col2_ratio` in the source. -/
def col1col2 (s : Inputs) : ℚ :=
  clamp 0.1 2.5 (2.0 - youngsModulus s / 50 - (if poreSize s > 6 then 0.8 else 0) -
    (if s.mw > 140000 then 0.3 else 0))

/-- Result of the MSC differentiation branch: label plus the three literal
score assignments. -/
structure MSCResult where
  lineage : String
  neurogenicScore : ℚ
  osteogenicScore : ℚ
  chondrogenicScore : ℚ
deriving DecidableEq, Repr

/-- The `if (youngsModulus < 35) ... else if (youngsModulus >= 35 &&
youngsModulus < 60) ... else ...` chain of the source.  The chain is
exhaustive, so the initial `let` values (all 50, label "Myogenic
(intermediate)") are always overwritten. -/
def mscOf (ym : ℚ) : MSCResult :=
  if ym < 35 then ⟨"Neurogenic (soft substrate)", 85, 25, 40⟩
  else if ym ≥ 35 ∧ ym < 60 then ⟨"Myogenic/Chondrogenic", 40, 45, 80⟩
  else ⟨"Osteogenic (stiff substrate)", 20, 90, 55⟩

def mscResult (s : Inputs) : MSCResult := mscOf (youngsModulus s)

def burstRelease (s : Inputs) : ℚ :=
  clamp 15 75 (70 - (s.mw / 100000) * 25 + (porosity s - 75) * 0.8)

def sustainedDuration (s : Inputs) : ℚ :=
  clamp 3 28 (5 + (s.mw / 100000) * 12 - (porosity s - 75) * 0.2)

/-! ## Stage 3: application suitability and cell compatibility scores -/

def skinRegeneration (s : Inputs) : ℚ :=
  min 100 ((if fiberDiameter s < 600 then 95 else 95 - (fiberDiameter s - 600) / 15) *
    (if porosity s > 80 then 1 else porosity s / 80) *
    (if degradationRate s > 12 then 1 else 0.85))

def vascularEngineering (s : Inputs) : ℚ :=
  min 100 ((if fiberDiameter s ≥ 400 ∧ fiberDiameter s ≤ 1200 then 95 else 75) *
    (if tensileStrength s ≥ 5 ∧ tensileStrength s ≤ 12 then 1 else 0.8) *
    (if porosity s > 70 then 1 else 0.85))

def nerveGuidance (s : Inputs) : ℚ :=
  min 100 ((if fiberDiameter s ≥ 500 ∧ fiberDiameter s ≤ 900 then 95 else 80) *
    (if porosity s > 72 then 1 else 0.88) *
    (if degradationRate s ≥ 6 ∧ degradationRate s ≤ 10 then 1 else 0.85))

def cartilageRepair (s : Inputs) : ℚ :=
  min 100 ((if fiberDiameter s > 800 then 95 else 70) *
    (if poreSize s > 6 then 1 else 0.75) *
    (if youngsModulus s > 60 then 1 else youngsModulus s / 60) *
    (if degradationRate s < 8 then 1 else 0.8))

def boneEngineering (s : Inputs) : ℚ :=
  min 100 ((if fiberDiameter s > 1000 then 95 else 80) *
    (if youngsModulus s > 70 then 1 else youngsModulus s / 70) *
    (if degradationRate s < 7 then 1 else 0.85))

def drugDelivery (s : Inputs) : ℚ :=
  min 100 ((if fiberDiameter s < 500 then 95 else 85) *
    (if porosity s > 82 then 1 else 0.88) *
    (if degradationRate s > 8 then 1 else 0.9))

def fibroblasts (s : Inputs) : ℚ :=
  min 100 ((if fiberDiameter s ≥ 200 ∧ fiberDiameter s ≤ 500 then 95 else 75) *
    (if porosity s > 75 then 1 else 0.85) *
    (if poreSize s ≥ 3 ∧ poreSize s ≤ 6 then 1 else 0.88))

def endothelial (s : Inputs) : ℚ :=
  min 100 ((if fiberDiameter s ≥ 400 ∧ fiberDiameter s ≤ 1000 then 95 else 78) *
    (if porosity s > 70 then 1 else 0.87) *
    (if poreSize s ≥ 4 ∧ poreSize s ≤ 8 then 1 else 0.85))

def schwann (s : Inputs) : ℚ :=
  min 100 ((if fiberDiameter s ≥ 500 ∧ fiberDiameter s ≤ 900 then 95 else 80) *
    (if porosity s > 72 then 1 else 0.88))

def chondrocytes (s : Inputs) : ℚ :=
  min 100 ((if fiberDiameter s > 800 then 95 else 70) *
    (if poreSize s > 6 then 1 else 0.75) *
    (if youngsModulus s ≥ 50 ∧ youngsModulus s ≤ 80 then 1 else 0.82))

def osteoblasts (s : Inputs) : ℚ :=
  min 100 ((if fiberDiameter s > 1000 then 95 else 80) *
    (if youngsModulus s > 70 then 1 else youngsModulus s / 70) *
    (if poreSize s > 7 then 1 else 0.85))

def stemCells (s : Inputs) : ℚ :=
  min 100 ((if fiberDiameter s ≥ 400 ∧ fiberDiameter s ≤ 1200 then 95 else 82) *
    (if porosity s > 70 then 1 else 0.88) *
    (if poreSize s ≥ 5 then 1 else 0.85))

/-! ## Stage 4: chart-data generators -/

/-- One row of the MW comparison table. -/
structure MWPoint where
  mw : ℚ
  fiberDiameter : ℤ
  porosity : ℚ
  tensileStrength : ℚ
  youngsModulus : ℤ
  degradationRate : ℚ
deriving DecidableEq, Repr

/-- `generateMWComparison`: re-runs the stage-1 formulas (unclamped, no
voltage/flow/distance factors) at eight fixed MW values; reads only
`concentration` from the current state. -/
def generateMWComparison (s : Inputs) : List MWPoint :=
  ([30000, 50000, 70000, 100000, 125000, 150000, 175000, 200000] : List ℚ).map
    (fun mwVal =>
      let viscFactor := (mwVal / 100000) * (s.concentration / 10)
      let fd := 400 * viscFactor
      let por := 95 - (fd / 100) * 2.5
      let ts := 2.5 + (mwVal / 100000) * 5.2 + (s.concentration - 10) * 0.35
      let ym := 25 + (mwVal / 100000) * 60 + (s.concentration - 10) * 2.5
      let dr := 25 - (mwVal / 100000) * 10.5
      ⟨mwVal / 1000, jsRound fd, round10 por, round10 ts, jsRound ym, round10 dr⟩)

/-- One row of the trade-off scatter table. -/
structure TradeoffPoint where
  mw : ℚ
  poreSize : ℚ
  tensileStrength : ℚ
  current : Bool
deriving DecidableEq, Repr

/-- The values taken by `testMw` in the loop
`for (let testMw = 30000; testMw <= 200000; testMw += 20000)`. -/
def tradeoffGrid : List ℚ :=
  [30000, 50000, 70000, 90000, 110000, 130000, 150000, 170000, 190000]

/-- `generateTradeoffData`: sweeps `testMw` over `tradeoffGrid`, recomputing
unclamped poreSize/tensileStrength at the current `concentration`, and flags
`current: testMw === mw`. -/
def generateTradeoffData (s : Inputs) : List TradeoffPoint :=
  tradeoffGrid.map (fun testMw =>
    let viscFactor := (testMw / 100000) * (s.concentration / 10)
    let fd := 400 * viscFactor
    let por := 95 - (fd / 100) * 2.5
    let ps := (fd / 200) * 1.5 + por / 20
    let ts := 2.5 + (testMw / 100000) * 5.2 + (s.concentration - 10) * 0.35
    ⟨testMw / 1000, round10 ps, round10 ts, decide (testMw = s.mw)⟩)

/-- One row of the 17-week degradation profile. -/
structure DegPoint where
  week : ℕ
  massRemaining : ℤ
  mechanicalRetention : ℤ
  cellInfiltration : ℤ
deriving DecidableEq, Repr

/-- JS `Math.round` over the reals. -/
noncomputable def jsRoundR (x : ℝ) : ℤ := Int.floor (x + 1/2)

/-- `generateDegradationProfile`: weeks 0..16, mass loss by exponential decay
with `k = predictions.degradationRate / 100 * 0.15`, mechanical retention by
`100*(1 - week/20)^1.5`, cell infiltration by a logistic curve. -/
noncomputable def generateDegradationProfile (s : Inputs) : List DegPoint :=
  (List.range 17).map (fun (week : ℕ) =>
    let k : ℝ := ((degradationRate s : ℚ) : ℝ) / 100 * 0.15
    let massRemaining : ℝ := 100 * Real.exp (-k * week)
    let mechanicalRetention : ℝ := 100 * Real.rpow (1 - (week : ℝ) / 20) 1.5
    let cellInfiltration : ℝ := 100 / (1 + Real.exp (-0.4 * ((week : ℝ) - 6)))
    ⟨week, max 0 (jsRoundR massRemaining), max 0 (jsRoundR mechanicalRetention),
      min 100 (jsRoundR cellInfiltration)⟩)

/-! ## Reference input and domain -/

/-- The reference input of the spec's boundary example (also the initial
slider state). -/
def refInputs : Inputs := ⟨100000, 10, 17.5, 1.5, 15⟩

/-- The declared slider domains. -/
def InDomain (s : Inputs) : Prop :=
  30000 ≤ s.mw ∧ s.mw ≤ 200000 ∧ 5 ≤ s.concentration ∧ s.concentration ≤ 20 ∧
  10 ≤ s.voltage ∧ s.voltage ≤ 25 ∧ 0.5 ≤ s.flowRate ∧ s.flowRate ≤ 3 ∧
  10 ≤ s.distance ∧ s.distance ≤ 25

instance (s : Inputs) : Decidable (InDomain s) := by
  unfold InDomain; infer_instance

/-! ## Spec-side definitions (written from the spec's wording, for the
refinement claims about the categorical classifiers) -/

/-- Modelled from the spec sentence: first matching rule of
`MW<70000 AND concentration<9 → beaded`;
`MW>150000 AND concentration>10 → ribbon-like/thick`;
`100000 ≤ MW ≤ 150000 → optimal uniform`; else default. -/
def morphologySpec (mw c : ℚ) : String :=
  if mw < 70000 ∧ c < 9 then "Beaded fibers (beads-on-string)"
  else if mw > 150000 ∧ c > 10 then "Thick fibers, potential ribbon-like"
  else if 100000 ≤ mw ∧ mw ≤ 150000 then "Smooth, uniform, bead-free (optimal)"
  else "Uniform, bead-free fibers"

/-- Modelled from the spec sentence: MW tier `<70000 → 6`,
`70000 ≤ MW < 150000 → 8`, `MW ≥ 150000 → 9`. -/
def minConcSpec (mw : ℚ) : ℚ :=
  if mw < 70000 then 6 else if 70000 ≤ mw ∧ mw < 150000 then 8 else 9

/-- Modelled from the spec sentence: MW tier `<70000 → 14`,
`70000 ≤ MW < 150000 → 12`, `MW ≥ 150000 → 10.5`. -/
def maxConcSpec (mw : ℚ) : ℚ :=
  if mw < 70000 then 14 else if 70000 ≤ mw ∧ mw < 150000 then 12 else 10.5

/-- Modelled from the spec sentence: three-way threshold
`ym < 35 → neurogenic (85,25,40)`, `35 ≤ ym < 60 → myogenic/chondrogenic
(40,45,80)`, `ym ≥ 60 → osteogenic (20,90,55)`. -/
def mscSpec (ym : ℚ) : MSCResult :=
  if ym < 35 then ⟨"Neurogenic (soft substrate)", 85, 25, 40⟩
  else if 35 ≤ ym ∧ ym < 60 then ⟨"Myogenic/Chondrogenic", 40, 45, 80⟩
  else ⟨"Osteogenic (stiff substrate)", 20, 90, 55⟩

/-! ## Helper lemmas -/

theorem clamp_bounds {lo hi : ℚ} (x : ℚ) (h : lo ≤ hi) :
    lo ≤ clamp lo hi x ∧ clamp lo hi x ≤ hi :=
  ⟨le_max_left _ _, max_le h (min_le_left _ _)⟩

theorem ite_nonneg (c : Prop) [Decidable c] {a b : ℚ} (ha : 0 ≤ a) (hb : 0 ≤ b) :
    0 ≤ if c then a else b := by
  split_ifs <;> assumption

theorem fiberDiameter_bounds (s : Inputs) : 150 ≤ fiberDiameter s ∧ fiberDiameter s ≤ 1500 :=
  clamp_bounds _ (by norm_num)

theorem porosity_bounds (s : Inputs) : 60 ≤ porosity s ∧ porosity s ≤ 95 :=
  clamp_bounds _ (by norm_num)

theorem poreSize_bounds (s : Inputs) : 2 ≤ poreSize s ∧ poreSize s ≤ 15 :=
  clamp_bounds _ (by norm_num)

theorem tensileStrength_bounds (s : Inputs) : 2 ≤ tensileStrength s ∧ tensileStrength s ≤ 32 :=
  clamp_bounds _ (by norm_num)

theorem youngsModulus_bounds (s : Inputs) : 20 ≤ youngsModulus s ∧ youngsModulus s ≤ 85 :=
  clamp_bounds _ (by norm_num)

theorem waterAbsorption_bounds (s : Inputs) : 350 ≤ waterAbsorption s ∧ waterAbsorption s ≤ 950 :=
  clamp_bounds _ (by norm_num)

theorem contactAngle_bounds (s : Inputs) : 35 ≤ contactAngle s ∧ contactAngle s ≤ 75 :=
  clamp_bounds _ (by norm_num)

theorem degradationRate_bounds (s : Inputs) : 4 ≤ degradationRate s ∧ degradationRate s ≤ 25 :=
  clamp_bounds _ (by norm_num)

theorem swellingRatio_bounds (s : Inputs) : 80 ≤ swellingRatio s ∧ swellingRatio s ≤ 100 :=
  clamp_bounds _ (by norm_num)

theorem cellViability_bounds (s : Inputs) : 85 ≤ cellViability s ∧ cellViability s ≤ 98 :=
  clamp_bounds _ (by norm_num)

theorem proliferationTime_bounds (s : Inputs) :
    20 ≤ proliferationTime s ∧ proliferationTime s ≤ 48 :=
  clamp_bounds _ (by norm_num)

theorem gagContent_bounds (s : Inputs) : 5 ≤ gagContent s ∧ gagContent s ≤ 45 :=
  clamp_bounds _ (by norm_num)

theorem col2Expression_bounds (s : Inputs) : 1 ≤ col2Expression s ∧ col2Expression s ≤ 8 :=
  clamp_bounds _ (by norm_num)

theorem aggrecanExpression_bounds (s : Inputs) :
    1 ≤ aggrecanExpression s ∧ aggrecanExpression s ≤ 6 :=
  clamp_bounds _ (by norm_num)

theorem col1col2_bounds (s : Inputs) : 0.1 ≤ col1col2 s ∧ col1col2 s ≤ 2.5 :=
  clamp_bounds _ (by norm_num)

theorem burstRelease_bounds (s : Inputs) : 15 ≤ burstRelease s ∧ burstRelease s ≤ 75 :=
  clamp_bounds _ (by norm_num)

theorem sustainedDuration_bounds (s : Inputs) :
    3 ≤ sustainedDuration s ∧ sustainedDuration s ≤ 28 :=
  clamp_bounds _ (by norm_num)

/-! ## Claim theorems -/

/-- Claim C1, counterexample: at the reference inputs the architecture stage
does NOT return `degradationRate = 14.5`; the formula also adds the porosity
term `(porosity - 75) * 0.15 = 1.5`. -/
theorem spec_C1_counterexample : degradationRate refInputs ≠ 14.5 := by
  norm_num [degradationRate, porosity, fiberDiameter, viscosityFactor, voltageFactor,
    flowFactor, distanceFactor, clamp, refInputs, max_def, min_def]

/-- Claim C1 (amended): at the reference inputs
`molecularWeight = 100000, concentration = 10, voltage = 17.5,
flowRate = 1.5, distance = 15` the architecture stage returns
`degradationRate = 25 - 10.5 + (85 - 75) * 0.15 = 16`. -/
theorem spec_C1 : degradationRate refInputs = 16 := by
  norm_num [degradationRate, porosity, fiberDiameter, viscosityFactor, voltageFactor,
    flowFactor, distanceFactor, clamp, refInputs, max_def, min_def]

/-- Claim C4: at the reference inputs all four intermediate factors equal 1,
and the architecture stage returns `fiberDiameter = 400`, `porosity = 85`,
`tensileStrength = 7.7`, `youngsModulus = 85` (the unclamped value already
equals the upper clamp 85, so the value is saturated there), and
`swellingRatio = 92`. -/
theorem spec_C4 :
    viscosityFactor refInputs = 1 ∧ voltageFactor refInputs = 1 ∧
    flowFactor refInputs = 1 ∧ distanceFactor refInputs = 1 ∧
    fiberDiameter refInputs = 400 ∧ porosity refInputs = 85 ∧
    tensileStrength refInputs = 7.7 ∧ youngsModulus refInputs = 85 ∧
    25 + (refInputs.mw / 100000) * 60 + (refInputs.concentration - 10) * 2.5 = 85 ∧
    swellingRatio refInputs = 92 := by
  norm_num [viscosityFactor, voltageFactor, flowFactor, distanceFactor, fiberDiameter,
    porosity, tensileStrength, youngsModulus, swellingRatio, clamp, refInputs,
    max_def, min_def]

/-- Claim C6: the morphology label is the first matching rule of
`mw < 70000 ∧ c < 9 → beaded`, `mw > 150000 ∧ c > 10 → ribbon-like/thick`,
`100000 ≤ mw ≤ 150000 → optimal uniform`, else the default label; in
particular `mw = 60000, c = 8` is beaded, `mw = 120000` with any
concentration (hence any in `[8,12]`) is optimal uniform, and
`mw = 180000, c = 12` is ribbon-like/thick. -/
theorem spec_C6 :
    (∀ s : Inputs, morphology s = morphologySpec s.mw s.concentration) ∧
    morphology ⟨60000, 8, 17.5, 1.5, 15⟩ = "Beaded fibers (beads-on-string)" ∧
    (∀ c v f d : ℚ,
      morphology ⟨120000, c, v, f, d⟩ = "Smooth, uniform, bead-free (optimal)") ∧
    morphology ⟨180000, 12, 17.5, 1.5, 15⟩ = "Thick fibers, potential ribbon-like" := by
  refine ⟨fun s => rfl, by decide, ?_, by decide⟩
  intro c v f d
  unfold morphology
  dsimp only
  split_ifs with h1 h2 h3
  · exact absurd h1.1 (by norm_num)
  · exact absurd h2.1 (by norm_num)
  · rfl
  · exact absurd ⟨by norm_num, by norm_num⟩ h3

/-- Claim C7: the concentration window is selected by MW tier
(`mw < 70000 → [6,14]`, `70000 ≤ mw < 150000 → [8,12]`,
`mw ≥ 150000 → [9,10.5]`) and `isInWindow` is true exactly when
`minConc ≤ concentration ≤ maxConc` (closed interval). -/
theorem spec_C7 :
    ∀ s : Inputs, minConc s = minConcSpec s.mw ∧ maxConc s = maxConcSpec s.mw ∧
      (isInWindow s = true ↔ minConc s ≤ s.concentration ∧ s.concentration ≤ maxConc s) := by
  intro s
  refine ⟨?_, ?_, ?_⟩
  · unfold minConc minConcSpec
    rcases lt_or_le s.mw 70000 with h | h
    · rw [if_pos h, if_pos h]
    · rw [if_neg (not_lt.mpr h), if_neg (not_lt.mpr h)]
      rcases lt_or_le s.mw 150000 with h2 | h2
      · rw [if_pos h2, if_pos (show 70000 ≤ s.mw ∧ s.mw < 150000 from ⟨h, h2⟩)]
      · rw [if_neg (not_lt.mpr h2),
          if_neg (show ¬(70000 ≤ s.mw ∧ s.mw < 150000) from fun hc => (not_lt.mpr h2) hc.2)]
  · unfold maxConc maxConcSpec
    rcases lt_or_le s.mw 70000 with h | h
    · rw [if_pos h, if_pos h]
    · rw [if_neg (not_lt.mpr h), if_neg (not_lt.mpr h)]
      rcases lt_or_le s.mw 150000 with h2 | h2
      · rw [if_pos h2, if_pos (show 70000 ≤ s.mw ∧ s.mw < 150000 from ⟨h, h2⟩)]
      · rw [if_neg (not_lt.mpr h2),
          if_neg (show ¬(70000 ≤ s.mw ∧ s.mw < 150000) from fun hc => (not_lt.mpr h2) hc.2)]
  · unfold isInWindow
    simp [Bool.and_eq_true, decide_eq_true_eq]

/-- Claim C8: the MSC lineage classification is a three-way threshold on the
derived `youngsModulus` with the literal score triples of the spec; the
boundary cases give neurogenic just below 35 and osteogenic at exactly 60. -/
theorem spec_C8 :
    (∀ s : Inputs, mscResult s = mscSpec (youngsModulus s)) ∧
    mscOf 34.9 = ⟨"Neurogenic (soft substrate)", 85, 25, 40⟩ ∧
    mscOf 60 = ⟨"Osteogenic (stiff substrate)", 20, 90, 55⟩ := by
  refine ⟨fun s => ?_, by norm_num [mscOf], by norm_num [mscOf]⟩
  simp only [mscResult, mscOf, mscSpec, ge_iff_le]

/-- Claim C10: for every input state the raw cell-viability expression takes
only the four values 92, 94, 96, 98; the clamp to `[85, 98]` therefore never
alters it, and `cellViability` is always at least 92. -/
theorem spec_C10 :
    ∀ s : Inputs,
      (cellViabilityRaw s = 92 ∨ cellViabilityRaw s = 94 ∨ cellViabilityRaw s = 96 ∨
        cellViabilityRaw s = 98) ∧
      cellViability s = cellViabilityRaw s ∧ 92 ≤ cellViability s := by
  intro s
  have h : cellViabilityRaw s = 92 ∨ cellViabilityRaw s = 94 ∨ cellViabilityRaw s = 96 ∨
      cellViabilityRaw s = 98 := by
    unfold cellViabilityRaw
    split_ifs <;> norm_num
  have heq : cellViability s = cellViabilityRaw s := by
    unfold cellViability clamp
    rcases h with h | h | h | h <;> rw [h] <;> decide
  refine ⟨h, heq, ?_⟩
  rw [heq]
  rcases h with h | h | h | h <;> rw [h] <;> norm_num

/-- Claim C5: for every input 5-tuple in the declared domains, every derived
quantity of the architecture stage and of the biology stage lies within its
documented clamp bounds. -/
theorem spec_C5 (s : Inputs) (h : InDomain s) :
    (150 ≤ fiberDiameter s ∧ fiberDiameter s ≤ 1500) ∧
    (60 ≤ porosity s ∧ porosity s ≤ 95) ∧
    (2 ≤ poreSize s ∧ poreSize s ≤ 15) ∧
    (2 ≤ tensileStrength s ∧ tensileStrength s ≤ 32) ∧
    (20 ≤ youngsModulus s ∧ youngsModulus s ≤ 85) ∧
    (350 ≤ waterAbsorption s ∧ waterAbsorption s ≤ 950) ∧
    (35 ≤ contactAngle s ∧ contactAngle s ≤ 75) ∧
    (4 ≤ degradationRate s ∧ degradationRate s ≤ 25) ∧
    (80 ≤ swellingRatio s ∧ swellingRatio s ≤ 100) ∧
    (85 ≤ cellViability s ∧ cellViability s ≤ 98) ∧
    (20 ≤ proliferationTime s ∧ proliferationTime s ≤ 48) ∧
    (5 ≤ gagContent s ∧ gagContent s ≤ 45) ∧
    (1 ≤ col2Expression s ∧ col2Expression s ≤ 8) ∧
    (1 ≤ aggrecanExpression s ∧ aggrecanExpression s ≤ 6) ∧
    (0.1 ≤ col1col2 s ∧ col1col2 s ≤ 2.5) ∧
    (15 ≤ burstRelease s ∧ burstRelease s ≤ 75) ∧
    (3 ≤ sustainedDuration s ∧ sustainedDuration s ≤ 28) :=
  ⟨fiberDiameter_bounds s, porosity_bounds s, poreSize_bounds s, tensileStrength_bounds s,
    youngsModulus_bounds s, waterAbsorption_bounds s, contactAngle_bounds s,
    degradationRate_bounds s, swellingRatio_bounds s, cellViability_bounds s,
    proliferationTime_bounds s, gagContent_bounds s, col2Expression_bounds s,
    aggrecanExpression_bounds s, col1col2_bounds s, burstRelease_bounds s,
    sustainedDuration_bounds s⟩

/-- Witness for C5: the reference inputs are in the declared domains, and all
seventeen bound pairs hold there. -/
theorem spec_C5_witness :
    InDomain refInputs ∧
    (150 ≤ fiberDiameter refInputs ∧ fiberDiameter refInputs ≤ 1500) ∧
    (60 ≤ porosity refInputs ∧ porosity refInputs ≤ 95) ∧
    (2 ≤ poreSize refInputs ∧ poreSize refInputs ≤ 15) ∧
    (2 ≤ tensileStrength refInputs ∧ tensileStrength refInputs ≤ 32) ∧
    (20 ≤ youngsModulus refInputs ∧ youngsModulus refInputs ≤ 85) ∧
    (350 ≤ waterAbsorption refInputs ∧ waterAbsorption refInputs ≤ 950) ∧
    (35 ≤ contactAngle refInputs ∧ contactAngle refInputs ≤ 75) ∧
    (4 ≤ degradationRate refInputs ∧ degradationRate refInputs ≤ 25) ∧
    (80 ≤ swellingRatio refInputs ∧ swellingRatio refInputs ≤ 100) ∧
    (85 ≤ cellViability refInputs ∧ cellViability refInputs ≤ 98) ∧
    (20 ≤ proliferationTime refInputs ∧ proliferationTime refInputs ≤ 48) ∧
    (5 ≤ gagContent refInputs ∧ gagContent refInputs ≤ 45) ∧
    (1 ≤ col2Expression refInputs ∧ col2Expression refInputs ≤ 8) ∧
    (1 ≤ aggrecanExpression refInputs ∧ aggrecanExpression refInputs ≤ 6) ∧
    (0.1 ≤ col1col2 refInputs ∧ col1col2 refInputs ≤ 2.5) ∧
    (15 ≤ burstRelease refInputs ∧ burstRelease refInputs ≤ 75) ∧
    (3 ≤ sustainedDuration refInputs ∧ sustainedDuration refInputs ≤ 28) :=
  ⟨by norm_num [InDomain, refInputs], spec_C5 refInputs (by norm_num [InDomain, refInputs])⟩

theorem skinRegeneration_bounds (s : Inputs) :
    0 ≤ skinRegeneration s ∧ skinRegeneration s ≤ 100 := by
  constructor
  · have h1 : (0 : ℚ) ≤ if fiberDiameter s < 600 then 95 else 95 - (fiberDiameter s - 600) / 15 := by
      split_ifs with h
      · norm_num
      · have hfd := (fiberDiameter_bounds s).2
        linarith
    have h2 : (0 : ℚ) ≤ if porosity s > 80 then 1 else porosity s / 80 := by
      split_ifs with h
      · norm_num
      · have hp := (porosity_bounds s).1
        linarith
    have h3 : (0 : ℚ) ≤ if degradationRate s > 12 then 1 else 0.85 := by
      split_ifs <;> norm_num
    exact le_min (by norm_num) (mul_nonneg (mul_nonneg h1 h2) h3)
  · exact min_le_left _ _

theorem vascularEngineering_bounds (s : Inputs) :
    0 ≤ vascularEngineering s ∧ vascularEngineering s ≤ 100 := by
  refine ⟨le_min (by norm_num) (mul_nonneg (mul_nonneg ?_ ?_) ?_), min_le_left _ _⟩ <;>
    exact ite_nonneg _ (by norm_num) (by norm_num)

theorem nerveGuidance_bounds (s : Inputs) : 0 ≤ nerveGuidance s ∧ nerveGuidance s ≤ 100 := by
  refine ⟨le_min (by norm_num) (mul_nonneg (mul_nonneg ?_ ?_) ?_), min_le_left _ _⟩ <;>
    exact ite_nonneg _ (by norm_num) (by norm_num)

theorem cartilageRepair_bounds (s : Inputs) :
    0 ≤ cartilageRepair s ∧ cartilageRepair s ≤ 100 := by
  constructor
  · have h3 : (0 : ℚ) ≤ if youngsModulus s > 60 then 1 else youngsModulus s / 60 := by
      split_ifs with h
      · norm_num
      · have hy := (youngsModulus_bounds s).1
        linarith
    exact le_min (by norm_num)
      (mul_nonneg
        (mul_nonneg (mul_nonneg (ite_nonneg _ (by norm_num) (by norm_num))
          (ite_nonneg _ (by norm_num) (by norm_num))) h3)
        (ite_nonneg _ (by norm_num) (by norm_num)))
  · exact min_le_left _ _

theorem boneEngineering_bounds (s : Inputs) :
    0 ≤ boneEngineering s ∧ boneEngineering s ≤ 100 := by
  constructor
  · have h2 : (0 : ℚ) ≤ if youngsModulus s > 70 then 1 else youngsModulus s / 70 := by
      split_ifs with h
      · norm_num
      · have hy := (youngsModulus_bounds s).1
        linarith
    exact le_min (by norm_num)
      (mul_nonneg (mul_nonneg (ite_nonneg _ (by norm_num) (by norm_num)) h2)
        (ite_nonneg _ (by norm_num) (by norm_num)))
  · exact min_le_left _ _

theorem drugDelivery_bounds (s : Inputs) : 0 ≤ drugDelivery s ∧ drugDelivery s ≤ 100 := by
  refine ⟨le_min (by norm_num) (mul_nonneg (mul_nonneg ?_ ?_) ?_), min_le_left _ _⟩ <;>
    exact ite_nonneg _ (by norm_num) (by norm_num)

theorem fibroblasts_bounds (s : Inputs) : 0 ≤ fibroblasts s ∧ fibroblasts s ≤ 100 := by
  refine ⟨le_min (by norm_num) (mul_nonneg (mul_nonneg ?_ ?_) ?_), min_le_left _ _⟩ <;>
    exact ite_nonneg _ (by norm_num) (by norm_num)

theorem endothelial_bounds (s : Inputs) : 0 ≤ endothelial s ∧ endothelial s ≤ 100 := by
  refine ⟨le_min (by norm_num) (mul_nonneg (mul_nonneg ?_ ?_) ?_), min_le_left _ _⟩ <;>
    exact ite_nonneg _ (by norm_num) (by norm_num)

theorem schwann_bounds (s : Inputs) : 0 ≤ schwann s ∧ schwann s ≤ 100 := by
  refine ⟨le_min (by norm_num) (mul_nonneg ?_ ?_), min_le_left _ _⟩ <;>
    exact ite_nonneg _ (by norm_num) (by norm_num)

theorem chondrocytes_bounds (s : Inputs) : 0 ≤ chondrocytes s ∧ chondrocytes s ≤ 100 := by
  refine ⟨le_min (by norm_num) (mul_nonneg (mul_nonneg ?_ ?_) ?_), min_le_left _ _⟩ <;>
    exact ite_nonneg _ (by norm_num) (by norm_num)

theorem osteoblasts_bounds (s : Inputs) : 0 ≤ osteoblasts s ∧ osteoblasts s ≤ 100 := by
  constructor
  · have h2 : (0 : ℚ) ≤ if youngsModulus s > 70 then 1 else youngsModulus s / 70 := by
      split_ifs with h
      · norm_num
      · have hy := (youngsModulus_bounds s).1
        linarith
    exact le_min (by norm_num)
      (mul_nonneg (mul_nonneg (ite_nonneg _ (by norm_num) (by norm_num)) h2)
        (ite_nonneg _ (by norm_num) (by norm_num)))
  · exact min_le_left _ _

theorem stemCells_bounds (s : Inputs) : 0 ≤ stemCells s ∧ stemCells s ≤ 100 := by
  refine ⟨le_min (by norm_num) (mul_nonneg (mul_nonneg ?_ ?_) ?_), min_le_left _ _⟩ <;>
    exact ite_nonneg _ (by norm_num) (by norm_num)

/-- Claim C9: for every input 5-tuple in the declared domains, each of the six
application-suitability scores and each of the six cell-compatibility scores,
computed from the clamped architecture properties, lies in `[0, 100]`. -/
theorem spec_C9 (s : Inputs) (h : InDomain s) :
    (0 ≤ skinRegeneration s ∧ skinRegeneration s ≤ 100) ∧
    (0 ≤ vascularEngineering s ∧ vascularEngineering s ≤ 100) ∧
    (0 ≤ nerveGuidance s ∧ nerveGuidance s ≤ 100) ∧
    (0 ≤ cartilageRepair s ∧ cartilageRepair s ≤ 100) ∧
    (0 ≤ boneEngineering s ∧ boneEngineering s ≤ 100) ∧
    (0 ≤ drugDelivery s ∧ drugDelivery s ≤ 100) ∧
    (0 ≤ fibroblasts s ∧ fibroblasts s ≤ 100) ∧
    (0 ≤ endothelial s ∧ endothelial s ≤ 100) ∧
    (0 ≤ schwann s ∧ schwann s ≤ 100) ∧
    (0 ≤ chondrocytes s ∧ chondrocytes s ≤ 100) ∧
    (0 ≤ osteoblasts s ∧ osteoblasts s ≤ 100) ∧
    (0 ≤ stemCells s ∧ stemCells s ≤ 100) :=
  ⟨skinRegeneration_bounds s, vascularEngineering_bounds s, nerveGuidance_bounds s,
    cartilageRepair_bounds s, boneEngineering_bounds s, drugDelivery_bounds s,
    fibroblasts_bounds s, endothelial_bounds s, schwann_bounds s, chondrocytes_bounds s,
    osteoblasts_bounds s, stemCells_bounds s⟩

/-- Witness for C9: all twelve score bounds hold at the reference inputs. -/
theorem spec_C9_witness :
    InDomain refInputs ∧
    (0 ≤ skinRegeneration refInputs ∧ skinRegeneration refInputs ≤ 100) ∧
    (0 ≤ vascularEngineering refInputs ∧ vascularEngineering refInputs ≤ 100) ∧
    (0 ≤ nerveGuidance refInputs ∧ nerveGuidance refInputs ≤ 100) ∧
    (0 ≤ cartilageRepair refInputs ∧ cartilageRepair refInputs ≤ 100) ∧
    (0 ≤ boneEngineering refInputs ∧ boneEngineering refInputs ≤ 100) ∧
    (0 ≤ drugDelivery refInputs ∧ drugDelivery refInputs ≤ 100) ∧
    (0 ≤ fibroblasts refInputs ∧ fibroblasts refInputs ≤ 100) ∧
    (0 ≤ endothelial refInputs ∧ endothelial refInputs ≤ 100) ∧
    (0 ≤ schwann refInputs ∧ schwann refInputs ≤ 100) ∧
    (0 ≤ chondrocytes refInputs ∧ chondrocytes refInputs ≤ 100) ∧
    (0 ≤ osteoblasts refInputs ∧ osteoblasts refInputs ≤ 100) ∧
    (0 ≤ stemCells refInputs ∧ stemCells refInputs ≤ 100) :=
  ⟨by norm_num [InDomain, refInputs], spec_C9 refInputs (by norm_num [InDomain, refInputs])⟩

/-- Claim C2, counterexample: two input states agreeing on concentration but
with different molecular weights (30000 vs 50000) produce different
`generateTradeoffData` datasets — the `current` flag moves with the current
MW, so the generators do not depend only on concentration. -/
theorem spec_C2_counterexample :
    (⟨30000, 10, 17.5, 1.5, 15⟩ : Inputs).concentration =
      (⟨50000, 10, 17.5, 1.5, 15⟩ : Inputs).concentration ∧
    generateTradeoffData ⟨30000, 10, 17.5, 1.5, 15⟩ ≠
      generateTradeoffData ⟨50000, 10, 17.5, 1.5, 15⟩ := by
  refine ⟨rfl, fun hEq => ?_⟩
  have h1 : (generateTradeoffData (⟨30000, 10, 17.5, 1.5, 15⟩ : Inputs)).map
      (fun p => p.current) =
      (generateTradeoffData (⟨50000, 10, 17.5, 1.5, 15⟩ : Inputs)).map
      (fun p => p.current) := by rw [hEq]
  have h2 : ([true, false, false, false, false, false, false, false, false] : List Bool) =
      [false, true, false, false, false, false, false, false, false] := h1
  exact absurd h2 (by decide)

/-- Claim C2 (amended): apart from their fixed alternate MW values,
`generateMWComparison` depends only on the current concentration;
`generateTradeoffData` depends only on the current concentration and
molecularWeight (through its `current` flag); and
`generateDegradationProfile` depends on the current inputs only through the
derived `degradationRate`. -/
theorem spec_C2 :
    (∀ s1 s2 : Inputs, s1.concentration = s2.concentration →
      generateMWComparison s1 = generateMWComparison s2) ∧
    (∀ s1 s2 : Inputs, s1.concentration = s2.concentration → s1.mw = s2.mw →
      generateTradeoffData s1 = generateTradeoffData s2) ∧
    (∀ s1 s2 : Inputs, degradationRate s1 = degradationRate s2 →
      generateDegradationProfile s1 = generateDegradationProfile s2) := by
  refine ⟨?_, ?_, ?_⟩
  · intro s1 s2 h
    unfold generateMWComparison
    rw [h]
  · intro s1 s2 h hmw
    unfold generateTradeoffData
    rw [h, hmw]
  · intro s1 s2 h
    unfold generateDegradationProfile
    rw [h]

/-- Witness for C2 (amended): concrete state pairs satisfying each
hypothesis — equal concentration, equal concentration and MW, and equal
derived degradation rate (both clamp to 4) — give equal datasets. -/
theorem spec_C2_witness :
    generateMWComparison ⟨100000, 10, 17.5, 1.5, 15⟩ =
      generateMWComparison ⟨150000, 10, 20, 2, 20⟩ ∧
    generateTradeoffData ⟨100000, 10, 17.5, 1.5, 15⟩ =
      generateTradeoffData ⟨100000, 10, 20, 2.5, 20⟩ ∧
    generateDegradationProfile ⟨200000, 20, 17.5, 1.5, 15⟩ =
      generateDegradationProfile ⟨200000, 20, 17.5, 2, 15⟩ :=
  ⟨spec_C2.1 _ _ rfl, spec_C2.2.1 _ _ rfl rfl,
    spec_C2.2.2 _ _ (by
      norm_num [degradationRate, porosity, fiberDiameter, viscosityFactor, voltageFactor,
        flowFactor, distanceFactor, clamp, max_def, min_def])⟩

/-- Claim C3, counterexample: at `molecularWeight = 35000` (in the domain,
nearest sweep point 30000 at distance 5000, all other grid points at least
15000 away) no trade-off point is flagged `current` — the code flags by
exact equality, not nearness. -/
theorem spec_C3_counterexample :
    (generateTradeoffData ⟨35000, 10, 17.5, 1.5, 15⟩).map (fun p => p.current) =
      List.replicate 9 false ∧
    (tradeoffGrid.all fun t => decide (t = 30000) ||
      decide (|(30000 : ℚ) - 35000| < |t - 35000|)) = true := by
  refine ⟨rfl, ?_⟩
  simp [tradeoffGrid]
  norm_num

/-- Claim C3 (amended): the 9-point trade-off dataset (grid 30000..190000 in
steps of 20000) marks with `current = true` exactly the sweep points whose MW
equals the current molecularWeight exactly; when the current MW is not one of
the nine grid values, no point is marked. -/
theorem spec_C3 :
    ∀ s : Inputs,
      (generateTradeoffData s).map (fun p => p.current) =
        tradeoffGrid.map (fun t => decide (t = s.mw)) ∧
      (generateTradeoffData s).map (fun p => p.mw) =
        tradeoffGrid.map (fun t => t / 1000) := by
  intro s
  constructor
  · unfold generateTradeoffData
    rw [List.map_map]
    rfl
  · unfold generateTradeoffData
    rw [List.map_map]
    rfl

end PVA
